import Mathlib

/-!
Verification of the cart / checkout / order pipeline of `app.py`.

Modelling conventions (shallow embedding):

* Database tables are Lean lists of row structures; the columns that are only
  used for rendering or timestamps (`created_at`, `order_date`, `photo`
  resolution via the image host, ...) are omitted where no claim mentions them.
* SQL `NULL` is `Option.none`; Python's `x or d` on strings is `pyOrStr`
  (`None` and `""` both fall through to the default), `float(x or 0)` on
  money is `pyOrQ` (a `NULL` price becomes `0`), and `str.strip()` is
  `pyStrip`.
* Money (`DECIMAL(10,2)` columns, Python `float` arithmetic) is modelled as
  `ℚ`; quantities are `Int` (Python `int`).
* The code talks to PostgreSQL through one `psycopg` connection per request
  with autocommit off, so all statements of a handler form a single
  transaction.  Following the documented PostgreSQL behaviour: a statement
  that errors aborts the transaction; every later statement in the same
  transaction raises (`InFailedSqlTransaction`) until the transaction ends;
  a `COMMIT` issued on an aborted transaction behaves as `ROLLBACK` and
  reports no error.  `Txn` models the pending (uncommitted) state together
  with the aborted flag, and a failure oracle says which statements error.
* Handlers return a result value standing for the rendered
  response/redirect/flash message.
-/

/-- Python `s or d` for an optional string column: `None` and the empty
string are falsy and fall through to the default. -/
def pyOrStr (x : Option String) (d : String) : String :=
  match x with
  | none => d
  | some s => if s = "" then d else s

/-- Python `float(x or 0)` for an optional numeric column: `NULL` (and `0`)
become `0`. -/
def pyOrQ (x : Option ℚ) : ℚ :=
  x.getD 0

/-- Python `str.strip()`: drop whitespace from both ends (executable model
of the trimming `checkout` applies to `delivery_location`). -/
def pyStrip (s : String) : String :=
  ⟨((s.data.dropWhile Char.isWhitespace).reverse.dropWhile Char.isWhitespace).reverse⟩

/-- Python `f"{x}"` on a value that may be `None`. -/
def pyShowOpt (x : Option String) : String :=
  match x with
  | none => "None"
  | some s => s

/-- Row of the `services` / `menu` tables (the columns the pipeline reads).
`name`, `price` and `final_price` are `NOT NULL` in the schema but are read
through `LEFT JOIN`s and defensive coercions, so we keep them optional. -/
structure CatalogItem where
  id : Nat
  name : Option String
  photo : Option String
  description : Option String
  final_price : Option ℚ
  discount : Option ℚ
  status : String
  deriving Repr, DecidableEq

/-- Row of the `cart` table. -/
structure CartRow where
  id : Nat
  user_id : Nat
  item_type : String
  item_id : Nat
  quantity : Int
  deriving Repr, DecidableEq

/-- One element of the `items_list` that `checkout` builds and stores as the
order's JSON snapshot (`json.dumps(items_list)`); the `discount` key is only
present when the joined discount is truthy. -/
structure SnapItem where
  item_type : String
  item_id : Nat
  item_name : String
  item_photo : String
  item_description : String
  quantity : Int
  price : ℚ
  total : ℚ
  discount : Option ℚ
  deriving Repr, DecidableEq

/-- Contents of the `orders.items` text column as seen by `json.loads`:
`empty` is a falsy column (`NULL`/empty string), `corrupt` is text that fails
to parse or does not parse to a list, and `list l` is a well-formed dump of a
checkout `items_list`. -/
inductive ItemsBlob where
  | empty : ItemsBlob
  | corrupt : ItemsBlob
  | list : List SnapItem → ItemsBlob
  deriving Repr, DecidableEq

/-- Row of the `orders` table (timestamp columns omitted). -/
structure OrderRow where
  order_id : Nat
  user_id : Nat
  user_name : Option String
  user_email : Option String
  user_phone : Option String
  user_address : Option String
  items : ItemsBlob
  total_amount : Option ℚ
  payment_mode : Option String
  delivery_location : Option String
  status : Option String
  deriving Repr, DecidableEq

/-- Row of the `order_items` table. -/
structure OrderItemRow where
  order_item_id : Nat
  order_id : Nat
  item_type : String
  item_id : Nat
  item_name : Option String
  item_photo : Option String
  item_description : Option String
  quantity : Int
  price : Option ℚ
  total : Option ℚ
  deriving Repr, DecidableEq

/-- Row of the `payments` table (razorpay/transaction columns omitted). -/
structure PaymentRow where
  order_id : Nat
  user_id : Nat
  amount : ℚ
  payment_mode : String
  payment_status : String
  deriving Repr, DecidableEq

/-- The Flask session fields the pipeline reads. -/
structure Session where
  user_id : Nat
  full_name : Option String
  email : Option String
  phone : Option String
  location : Option String
  deriving Repr, DecidableEq

/-- The relational store: one list per table plus the `SERIAL` counters. -/
structure DB where
  services : List CatalogItem
  menu : List CatalogItem
  cart : List CartRow
  orders : List OrderRow
  order_items : List OrderItemRow
  payments : List PaymentRow
  next_cart_id : Nat
  next_order_id : Nat
  next_order_item_id : Nat
  deriving Repr, DecidableEq

/-- Lookup `WHERE id = %s` against the table selected by `item_type`; the
`LEFT JOIN ... ON c.item_type = 'service' AND c.item_id = s.id` clauses mean
a row whose type matches neither table joins nothing.  `id` is a primary
key, so `find?` models the unique match. -/
def catalogLookup (db : DB) (ty : String) (iid : Nat) : Option CatalogItem :=
  if ty = "service" then db.services.find? (fun s => s.id == iid)
  else if ty = "menu" then db.menu.find? (fun m => m.id == iid)
  else none

/-- Lookup `SELECT id FROM services/menu WHERE id = %s AND status = 'active'`
used by `add_to_cart`. -/
def catalogActiveLookup (db : DB) (ty : String) (iid : Nat) : Option CatalogItem :=
  if ty = "service" then db.services.find? (fun s => s.id == iid && s.status == "active")
  else db.menu.find? (fun m => m.id == iid && m.status == "active")

/-- The rows `SELECT ... FROM cart WHERE user_id = %s` returns. -/
def userCart (db : DB) (uid : Nat) : List CartRow :=
  db.cart.filter (fun c => c.user_id == uid)

/-- Result of the JSON cart-mutation endpoints. -/
inductive CartResult where
  | ok : String → CartResult
  | fail : String → CartResult
  deriving Repr, DecidableEq

/-- Handler `add_to_cart` (`app.py`): validates the form fields, requires an
active catalog item, then either increments the existing row for
`(user, item_type, item_id)` or inserts a new row.  The handler performs no
check on `quantity`. -/
def add_to_cart (db : DB) (uid : Nat) (item_type : Option String)
    (item_id : Option Nat) (quantity : Int) : DB × CartResult :=
  match item_type, item_id with
  | none, _ => (db, .fail "Missing item information")
  | some _, none => (db, .fail "Missing item information")
  | some ty, some iid =>
    if ty ≠ "service" ∧ ty ≠ "menu" then
      (db, .fail "Invalid item type")
    else if (catalogActiveLookup db ty iid).isNone then
      (db, .fail "Item not available")
    else
      match db.cart.find? (fun c => c.user_id == uid && c.item_type == ty && c.item_id == iid) with
      | some existing =>
        let new_quantity := existing.quantity + quantity
        ({ db with cart := db.cart.map (fun c =>
             if c.id == existing.id then { c with quantity := new_quantity } else c) },
         .ok "Item added to cart")
      | none =>
        ({ db with
             cart := db.cart ++ [⟨db.next_cart_id, uid, ty, iid, quantity⟩],
             next_cart_id := db.next_cart_id + 1 },
         .ok "Item added to cart")

/-- Handler `update_cart` (`app.py`): looks the row up by `(id, user_id)`,
adjusts the quantity by the action, and deletes the row (`DELETE ... WHERE
id = %s`, no user filter) when the new quantity is `≤ 0`. -/
def update_cart (db : DB) (uid : Nat) (cart_id : Nat) (action : String) :
    DB × CartResult :=
  match db.cart.find? (fun c => c.id == cart_id && c.user_id == uid) with
  | none => (db, .fail "Item not found")
  | some item =>
    let new_quantity :=
      if action = "increase" then item.quantity + 1
      else if action = "decrease" then item.quantity - 1
      else item.quantity
    if new_quantity ≤ 0 then
      ({ db with cart := db.cart.filter (fun c => c.id != cart_id) }, .ok "")
    else
      ({ db with cart := db.cart.map (fun c =>
           if c.id == cart_id then { c with quantity := new_quantity } else c) },
       .ok "")

/-- Handler `remove_from_cart` (`app.py`): `DELETE FROM cart WHERE id = %s
AND user_id = %s`. -/
def remove_from_cart (db : DB) (uid : Nat) (cart_id : Nat) : DB :=
  { db with cart := db.cart.filter (fun c => !(c.id == cart_id && c.user_id == uid)) }

/-- Per-line unit price of the `/cart` page: the joined `final_price` of the
matching catalog row through `float(... or 0)`. -/
def cartRoutePrice (db : DB) (c : CartRow) : ℚ :=
  pyOrQ ((catalogLookup db c.item_type c.item_id).bind (fun it => it.final_price))

/-- Grand total of the `/cart` page: sum of `price * quantity` over the
user's cart rows. -/
def cartRouteTotal (db : DB) (uid : Nat) : ℚ :=
  ((userCart db uid).map (fun c => cartRoutePrice db c * (c.quantity : ℚ))).sum

/-- The row shape of `checkout`'s cart query (cart columns plus the
`COALESCE`d catalog columns; for a given line only the table matching its
`item_type` can contribute, so each `COALESCE` is the matching table's
column). -/
structure CartJoinRow where
  item_type : String
  item_id : Nat
  quantity : Int
  item_name : Option String
  item_photo : Option String
  item_description : Option String
  price : Option ℚ
  discount : Option ℚ
  deriving Repr, DecidableEq

/-- One row of `checkout`'s `SELECT ... FROM cart c LEFT JOIN services s ...
LEFT JOIN menu m ... WHERE c.user_id = %s`. -/
def checkoutJoin (db : DB) (c : CartRow) : CartJoinRow :=
  let it := catalogLookup db c.item_type c.item_id
  { item_type := c.item_type
    item_id := c.item_id
    quantity := c.quantity
    item_name := it.bind (fun r => r.name)
    item_photo := it.bind (fun r => r.photo)
    item_description := it.bind (fun r => r.description)
    price := it.bind (fun r => r.final_price)
    discount := it.bind (fun r => r.discount) }

/-- The `cart_items` list `checkout` fetches. -/
def checkoutCartQuery (db : DB) (uid : Nat) : List CartJoinRow :=
  (userCart db uid).map (checkoutJoin db)

/-- Python `if item.get('discount'):` — the `discount` key is added only
when the joined value is truthy (non-`NULL` and non-zero); its value is then
`float(item['discount'] or 0)`, i.e. the value itself. -/
def pyTruthyQ (x : Option ℚ) : Option ℚ :=
  x.bind (fun d => if d = 0 then none else some d)

/-- One element of the `items_list` snapshot built in `checkout`'s loop:
`item_price = float(item['price'] or 0)`, `item_total = item_price *
item_quantity`, names defaulted through Python `or`. -/
def mkSnapItem (r : CartJoinRow) : SnapItem :=
  let item_price := pyOrQ r.price
  { item_type := r.item_type
    item_id := r.item_id
    item_name := pyOrStr r.item_name (r.item_type.capitalize ++ " #" ++ toString r.item_id)
    item_photo := pyOrStr r.item_photo ""
    item_description := pyOrStr r.item_description ""
    quantity := r.quantity
    price := item_price
    total := item_price * (r.quantity : ℚ)
    discount := pyTruthyQ r.discount }

/-- The snapshot `items_list` of a checkout run against `db`. -/
def checkoutItems (db : DB) (uid : Nat) : List SnapItem :=
  (checkoutCartQuery db uid).map mkSnapItem

/-- The `total_amount` accumulated in `checkout`'s loop: the sum of the
snapshot line totals. -/
def checkoutTotal (db : DB) (uid : Nat) : ℚ :=
  ((checkoutItems db uid).map (fun it => it.total)).sum

/-- A database transaction in progress: the uncommitted pending state plus
whether a statement has already errored (PostgreSQL aborted-transaction
state). -/
structure Txn where
  pending : DB
  aborted : Bool
  deriving Repr, DecidableEq

/-- Execute one statement inside the transaction.  The statement raises
(second component `true`) when the transaction is already aborted — the
server refuses further commands until the transaction ends — or when the
statement itself errors; otherwise its mutation joins the pending state. -/
def Txn.exec (t : Txn) (stmtFails : Bool) (f : DB → DB) : Txn × Bool :=
  if t.aborted || stmtFails then ({ t with aborted := true }, true)
  else ({ pending := f t.pending, aborted := false }, false)

/-- Which of `checkout`'s statements error, for exercising the failure
paths; `failItemInsert i` is the `order_items` insert of the `i`-th cart
line. -/
structure FailOracle where
  failCartSelect : Bool
  failOrderInsert : Bool
  failItemInsert : Nat → Bool
  failPaymentInsert : Bool
  failCartDelete : Bool
  failCommit : Bool

/-- The oracle of a run in which every statement succeeds. -/
def noFail : FailOracle :=
  { failCartSelect := false
    failOrderInsert := false
    failItemInsert := fun _ => false
    failPaymentInsert := false
    failCartDelete := false
    failCommit := false }

/-- The `orders` row `checkout` inserts (`status` hard-coded `'pending'`,
`items` the JSON dump of the snapshot, `total_amount` the accumulated
total, user columns copied from the session). -/
def newOrderRow (db : DB) (sess : Session) (pm delivery : String) : OrderRow :=
  { order_id := db.next_order_id
    user_id := sess.user_id
    user_name := sess.full_name
    user_email := sess.email
    user_phone := sess.phone
    user_address := sess.location
    items := ItemsBlob.list (checkoutItems db sess.user_id)
    total_amount := some (checkoutTotal db sess.user_id)
    payment_mode := some pm
    delivery_location := some delivery
    status := some "pending" }

/-- The `order_items` insert for one cart line: raw joined columns, price
and total through `float(... or 0)`. -/
def insertOrderItem (oid : Nat) (r : CartJoinRow) (d : DB) : DB :=
  { d with
      order_items := d.order_items ++
        [{ order_item_id := d.next_order_item_id
           order_id := oid
           item_type := r.item_type
           item_id := r.item_id
           item_name := r.item_name
           item_photo := r.item_photo
           item_description := r.item_description
           quantity := r.quantity
           price := some (pyOrQ r.price)
           total := some (pyOrQ r.price * (r.quantity : ℚ)) }]
      next_order_item_id := d.next_order_item_id + 1 }

/-- The loop inserting one `order_items` row per cart line, each insert
wrapped in `try/except` (a raise is swallowed and the loop continues);
`i` is the position in the failure oracle. -/
def insertItemsLoop (oid : Nat) (t : Txn) (rows : List CartJoinRow)
    (fails : Nat → Bool) (i : Nat) : Txn :=
  match rows with
  | [] => t
  | r :: rest =>
    insertItemsLoop oid ((t.exec (fails i) (insertOrderItem oid r)).1) rest fails (i + 1)

/-- All `order_items` inserts applied in order (the pending state a
failure-free loop reaches). -/
def applyItemInserts (oid : Nat) (d : DB) (rows : List CartJoinRow) : DB :=
  rows.foldl (fun acc r => insertOrderItem oid r acc) d

/-- The response of the `checkout` POST handler. -/
inductive CheckoutResult where
  | missingFields : CheckoutResult
  | emptyCart : CheckoutResult
  | persistenceFailure : CheckoutResult
  | success : Nat → CheckoutResult
  deriving Repr, DecidableEq

/-- Handler `checkout` (POST branch of `app.py`):
field validation (`if not payment_mode or not delivery_location`), cart
fetch, empty-cart check, then in one transaction the `orders` insert (a
raise propagates), the per-line `order_items` inserts (raises swallowed),
the `payments` insert (raise swallowed), the cart `DELETE` (a raise
propagates) and `conn.commit()`.  An exception leaves the `with` block, so
the connection rolls back and the handler flashes an error. -/
def checkout (db : DB) (sess : Session) (payment_mode delivery_location : Option String)
    (o : FailOracle) : DB × CheckoutResult :=
  let pm := payment_mode.getD ""
  let delivery := pyStrip (delivery_location.getD "")
  if pm = "" ∨ delivery = "" then
    (db, .missingFields)
  else if o.failCartSelect then
    (db, .persistenceFailure)
  else
    let uid := sess.user_id
    let cart_items := checkoutCartQuery db uid
    if cart_items.isEmpty then
      (db, .emptyCart)
    else
      let oid := db.next_order_id
      let t0 : Txn := ⟨db, false⟩
      let e1 := t0.exec o.failOrderInsert (fun d =>
        { d with
            orders := d.orders ++ [newOrderRow db sess pm delivery]
            next_order_id := d.next_order_id + 1 })
      if e1.2 then (db, .persistenceFailure)
      else
        let t2 := insertItemsLoop oid e1.1 cart_items o.failItemInsert 0
        let t3 := (t2.exec o.failPaymentInsert (fun d =>
          { d with payments := d.payments ++
              [⟨oid, uid, checkoutTotal db uid, pm, "pending"⟩] })).1
        let e4 := t3.exec o.failCartDelete (fun d =>
          { d with cart := d.cart.filter (fun c => !(c.user_id == uid)) })
        if e4.2 then (db, .persistenceFailure)
        else if o.failCommit then (db, .persistenceFailure)
        else (e4.1.pending, .success oid)

/-- The committed post-state of a failure-free checkout. -/
def checkoutSuccessDB (db : DB) (sess : Session) (pm delivery : String) : DB :=
  let uid := sess.user_id
  let oid := db.next_order_id
  let d1 : DB :=
    { db with
        orders := db.orders ++ [newOrderRow db sess pm delivery]
        next_order_id := oid + 1 }
  let d2 := applyItemInserts oid d1 (checkoutCartQuery db uid)
  let d3 : DB :=
    { d2 with payments := d2.payments ++ [⟨oid, uid, checkoutTotal db uid, pm, "pending"⟩] }
  { d3 with cart := d3.cart.filter (fun c => !(c.user_id == uid)) }

/-- One reconstructed line of an order as the templates receive it (the
fields the claims mention; photo/description/item_id are rendering-only and
omitted).  `name` stays optional because the `order_items` fallback reads
the column through `dict.get`, which returns the stored `NULL` when the key
is present. -/
structure HistItem where
  name : Option String
  item_type : String
  quantity : Int
  price : ℚ
  total : ℚ
  deriving Repr, DecidableEq

/-- Decoding of one snapshot element in `order_history` / `order_details`:
every key is present in a checkout dump, so the `dict.get` defaults do not
fire and the numeric fields pass through `float(... or 0)` unchanged. -/
def histItemOfSnap (it : SnapItem) : HistItem :=
  { name := some it.item_name
    item_type := it.item_type
    quantity := it.quantity
    price := pyOrQ (some it.price)
    total := pyOrQ (some it.total) }

/-- The `items_list` both order views build from the `orders.items` column:
a falsy column is skipped, a `json.loads` failure (or a non-list result) is
caught and leaves the list empty, and a well-formed list is mapped. -/
def histItemsOfBlob (b : ItemsBlob) : List HistItem :=
  match b with
  | .empty => []
  | .corrupt => []
  | .list l => l.map histItemOfSnap

/-- The line list `order_history` renders for one order: only the snapshot
is consulted — this handler has no `order_items` fallback. -/
def orderHistoryLines (ord : OrderRow) : List HistItem :=
  histItemsOfBlob ord.items

/-- Conversion of one `order_items` row in `order_details`' fallback; the
`dict.get` calls find every key, so the stored values (including `NULL`
names) pass through, with prices coerced by `float(... or 0)`. -/
def histItemOfRow (r : OrderItemRow) : HistItem :=
  { name := r.item_name
    item_type := r.item_type
    quantity := r.quantity
    price := pyOrQ r.price
    total := pyOrQ r.total }

/-- The synthesized line `order_details` renders when both the snapshot and
the `order_items` rows are empty, priced at `float(total_amount or 0)`. -/
def placeholderItem (ord : OrderRow) : HistItem :=
  { name := some "Order items not available"
    item_type := "unknown"
    quantity := 1
    price := pyOrQ ord.total_amount
    total := pyOrQ ord.total_amount }

/-- The `order_items` rows `order_details` fetches for an order. -/
def orderItemRows (db : DB) (oid : Nat) : List OrderItemRow :=
  db.order_items.filter (fun r => r.order_id == oid)

/-- The line list `order_details` renders: the snapshot, else the
`order_items` rows, else the single placeholder line. -/
def orderDetailsLines (ord : OrderRow) (rows : List OrderItemRow) : List HistItem :=
  let items_list := histItemsOfBlob ord.items
  let items_list := if items_list.isEmpty && !rows.isEmpty then rows.map histItemOfRow else items_list
  if items_list.isEmpty then [placeholderItem ord] else items_list

/-- The response of the `cancel_order` handler. -/
inductive CancelResult where
  | notFound : CancelResult
  | notCancellable : String → CancelResult
  | cancelledOk : CancelResult
  | error : CancelResult
  deriving Repr, DecidableEq

/-- Which of `cancel_order`'s statements error. -/
structure CancelOracle where
  failStatusSelect : Bool
  failOrderUpdate : Bool
  failPaymentUpdate : Bool
  failCommit : Bool
  deriving Repr, DecidableEq

/-- The oracle of a cancellation in which every statement succeeds. -/
def cancelNoFail : CancelOracle :=
  { failStatusSelect := false
    failOrderUpdate := false
    failPaymentUpdate := false
    failCommit := false }

/-- Handler `cancel_order` (`app.py`): select the order's status by
`(order_id, user_id)`; refuse unless it is `'pending'` (the flash message
interpolates the current status); otherwise update `orders.status` (a raise
propagates), update `payments.payment_status` inside `try/except` (a raise
is swallowed), then `conn.commit()` — which, issued on a transaction the
swallowed failure left aborted, rolls the status change back while the
handler still answers success. -/
def cancel_order (db : DB) (uid oid : Nat) (o : CancelOracle) : DB × CancelResult :=
  if o.failStatusSelect then (db, .error)
  else
    match db.orders.find? (fun r => r.order_id == oid && r.user_id == uid) with
    | none => (db, .notFound)
    | some ord =>
      if ord.status ≠ some "pending" then
        (db, .notCancellable
          ("Order cannot be cancelled. Current status: " ++ pyShowOpt ord.status))
      else
        let t0 : Txn := ⟨db, false⟩
        let e1 := t0.exec o.failOrderUpdate (fun d =>
          { d with orders := d.orders.map (fun r =>
              if r.order_id == oid && r.user_id == uid then { r with status := some "cancelled" }
              else r) })
        if e1.2 then (db, .error)
        else
          let t2 := (e1.1.exec o.failPaymentUpdate (fun d =>
            { d with payments := d.payments.map (fun p =>
                if p.order_id == oid then { p with payment_status := "refunded" } else p) })).1
          if o.failCommit then (db, .error)
          else if t2.aborted then (db, .cancelledOk)
          else (t2.pending, .cancelledOk)

/-! Helper lemmas about the transaction model. -/

/-- Which of `checkout`'s statements error (the failure oracle components
actually consulted by a run). -/
def checkoutFailed (db : DB) (sess : Session) (o : FailOracle) : Bool :=
  o.failCartSelect || o.failOrderInsert ||
    (List.range (userCart db sess.user_id).length).any o.failItemInsert ||
    o.failPaymentInsert || o.failCartDelete || o.failCommit

/-- Two cart rows collide when they agree on the (user_id, item_type,
item_id) triple that the schema declares UNIQUE. -/
def cartTripleEq (a b : CartRow) : Prop :=
  a.user_id = b.user_id ∧ a.item_type = b.item_type ∧ a.item_id = b.item_id

/-- Concrete store for the C1 witness: the spec's scenario (service 450 × 1,
menu 225 × 2 in user 7's cart). -/
def dbW1 : DB :=
  ⟨[⟨1, some "Home Cleaning", none, none, some 450, none, "active"⟩],
   [⟨2, some "Pizza", none, none, some 225, some 0, "active"⟩],
   [⟨1, 7, "service", 1, 1⟩, ⟨2, 7, "menu", 2, 2⟩], [], [], [], 3, 1, 1⟩

/-- Concrete store and oracle for the C2 witness: the first order_items
insert fails. -/
def dbW2 : DB :=
  ⟨[⟨1, some "S", none, none, some 450, none, "active"⟩], [],
   [⟨1, 7, "service", 1, 1⟩], [], [], [], 2, 1, 1⟩

/-- Concrete store for the C3 counterexample: user 7 has one priced, active
item in the cart. -/
def dbC3 : DB :=
  ⟨[⟨1, some "Home Cleaning", none, none, some 450, none, "active"⟩], [],
   [⟨1, 7, "service", 1, 1⟩], [], [], [], 2, 1, 1⟩

/-- Concrete store for the C6 witness: the spec's add-1-then-2 scenario,
after the first add has stored quantity 1. -/
def dbW6 : DB :=
  ⟨[⟨1, some "S", none, none, some 5, none, "active"⟩], [],
   [⟨1, 7, "service", 1, 1⟩], [], [], [], 2, 1, 1⟩

/-- Concrete store for the C8 witness: a cart row pointing at a deleted
catalog item. -/
def dbW8 : DB := ⟨[], [], [⟨1, 7, "service", 42, 3⟩], [], [], [], 2, 1, 1⟩

def sessW1 : Session := ⟨7, some "W", none, none, none⟩

def dbW9 : DB := ⟨[⟨1, some "S", none, none, some 10, none, "active"⟩], [], [], [], [], [], 1, 1, 1⟩

def sessW9 : Session := ⟨3, none, none, none, none⟩

def sessW2 : Session := ⟨7, none, none, none, none⟩

def oW2 : FailOracle := { noFail with failItemInsert := fun i => i == 0 }

def sessC3 : Session := ⟨7, none, none, none, none⟩

/-- Concrete corrupted-snapshot order for the C4 counterexample. -/
def ordC4 : OrderRow :=
  ⟨1, 7, none, none, none, none, ItemsBlob.corrupt, some 450, some "COD", some "x",
   some "pending"⟩

/-- Invariant: every cart row stores a quantity of at least 1. -/
def cartPos (db : DB) : Prop := ∀ c ∈ db.cart, 1 ≤ c.quantity

/-- Concrete store for the C5 counterexample. -/
def dbC5 : DB := ⟨[⟨1, some "S", none, none, some 10, none, "active"⟩], [], [], [], [], [], 1, 1, 1⟩

/-- Concrete store for the C5 witness. -/
def dbW5 : DB := ⟨[], [], [⟨4, 2, "menu", 9, 1⟩], [], [], [], 5, 1, 1⟩

/-- Invariant: at most one cart row per (user_id, item_type, item_id). -/
def cartUniq (db : DB) : Prop :=
  db.cart.Pairwise (fun a b => ¬ cartTripleEq a b)

/-- Concrete store for C7: user 7 owns pending order 1 with a payment row. -/
def dbC7 : DB :=
  ⟨[], [], [],
   [⟨1, 7, none, none, none, none, ItemsBlob.list [], some 900, some "COD", some "x",
     some "pending"⟩],
   [], [⟨1, 7, 900, "COD", "pending"⟩], 1, 2, 1⟩

/-- Concrete store for the C10 witness: the only catalog row is inactive. -/
def dbW10 : DB :=
  ⟨[⟨1, some "S", none, none, some 5, none, "inactive"⟩], [], [], [], [], [], 1, 1, 1⟩

theorem Txn.exec_of_aborted (t : Txn) (b : Bool) (f : DB → DB) (h : t.aborted = true) :
    t.exec b f = (t, true) := by
  cases t with
  | mk p a =>
    simp only [Txn.exec] at *
    simp [h]

theorem Txn.exec_snd (t : Txn) (b : Bool) (f : DB → DB) :
    (t.exec b f).2 = (t.aborted || b) := by
  simp only [Txn.exec]
  split <;> simp_all

theorem Txn.exec_fst_aborted (t : Txn) (b : Bool) (f : DB → DB) :
    ((t.exec b f).1).aborted = (t.aborted || b) := by
  simp only [Txn.exec]
  split <;> simp_all

theorem insertItemsLoop_of_aborted (oid : Nat) (rows : List CartJoinRow)
    (fails : Nat → Bool) :
    ∀ (i : Nat) (t : Txn), t.aborted = true → insertItemsLoop oid t rows fails i = t := by
  induction rows with
  | nil => intro i t _; rfl
  | cons r rest ih =>
    intro i t h
    simp only [insertItemsLoop, Txn.exec_of_aborted _ _ _ h]
    exact ih _ _ h

theorem insertItemsLoop_of_noFail (oid : Nat) (rows : List CartJoinRow)
    (fails : Nat → Bool) :
    ∀ (i : Nat) (d : DB), (∀ j, j < rows.length → fails (i + j) = false) →
    insertItemsLoop oid ⟨d, false⟩ rows fails i = ⟨applyItemInserts oid d rows, false⟩ := by
  induction rows with
  | nil => intro i d _; rfl
  | cons r rest ih =>
    intro i d h
    have h0 : fails i = false := by simpa using h 0 (by simp)
    have hrest : ∀ j, j < rest.length → fails (i + 1 + j) = false := by
      intro j hj
      have := h (j + 1) (by simpa using Nat.succ_lt_succ hj)
      simpa [Nat.add_comm, Nat.add_left_comm, Nat.add_assoc] using this
    simp only [insertItemsLoop, Txn.exec, h0, Bool.or_false, if_neg Bool.false_ne_true]
    simpa [applyItemInserts] using ih (i + 1) (insertOrderItem oid r d) hrest

theorem insertItemsLoop_aborted_of_fail (oid : Nat) (rows : List CartJoinRow)
    (fails : Nat → Bool) :
    ∀ (i j : Nat) (t : Txn), j < rows.length → fails (i + j) = true →
    (insertItemsLoop oid t rows fails i).aborted = true := by
  induction rows with
  | nil => intro i j t hj _; simp at hj
  | cons r rest ih =>
    intro i j t hj hf
    match j with
    | 0 =>
      have h0 : fails i = true := by simpa using hf
      have habort : ((t.exec (fails i) (insertOrderItem oid r)).1).aborted = true := by
        simp [Txn.exec_fst_aborted, h0]
      simp only [insertItemsLoop]
      rw [insertItemsLoop_of_aborted _ _ _ _ _ habort]
      exact habort
    | j' + 1 =>
      have hj' : j' < rest.length := by simpa using Nat.lt_of_succ_lt_succ hj
      have hf' : fails (i + 1 + j') = true := by
        have : i + 1 + j' = i + (j' + 1) := by omega
        rw [this]; exact hf
      simp only [insertItemsLoop]
      exact ih (i + 1) j' _ hj' hf'

theorem applyItemInserts_order_items_length (oid : Nat) (rows : List CartJoinRow) :
    ∀ d : DB, (applyItemInserts oid d rows).order_items.length =
      d.order_items.length + rows.length := by
  induction rows with
  | nil => intro d; simp [applyItemInserts]
  | cons r rest ih =>
    intro d
    simp only [applyItemInserts, List.foldl] at *
    rw [ih (insertOrderItem oid r d)]
    simp [insertOrderItem]
    omega

theorem applyItemInserts_orders (oid : Nat) (rows : List CartJoinRow) :
    ∀ d : DB, (applyItemInserts oid d rows).orders = d.orders := by
  induction rows with
  | nil => intro d; rfl
  | cons r rest ih =>
    intro d
    simp only [applyItemInserts, List.foldl] at *
    rw [ih (insertOrderItem oid r d)]
    rfl

theorem applyItemInserts_cart (oid : Nat) (rows : List CartJoinRow) :
    ∀ d : DB, (applyItemInserts oid d rows).cart = d.cart := by
  induction rows with
  | nil => intro d; rfl
  | cons r rest ih =>
    intro d
    simp only [applyItemInserts, List.foldl] at *
    rw [ih (insertOrderItem oid r d)]
    rfl

theorem applyItemInserts_payments (oid : Nat) (rows : List CartJoinRow) :
    ∀ d : DB, (applyItemInserts oid d rows).payments = d.payments := by
  induction rows with
  | nil => intro d; rfl
  | cons r rest ih =>
    intro d
    simp only [applyItemInserts, List.foldl] at *
    rw [ih (insertOrderItem oid r d)]
    rfl

theorem checkout_missing (db : DB) (sess : Session) (pmo dlo : Option String) (o : FailOracle)
    (h : pmo.getD "" = "" ∨ pyStrip (dlo.getD "") = "") :
    checkout db sess pmo dlo o = (db, CheckoutResult.missingFields) := by
  unfold checkout
  simp only [if_pos h]

theorem checkout_selectfail (db : DB) (sess : Session) (pmo dlo : Option String) (o : FailOracle)
    (hv : ¬ (pmo.getD "" = "" ∨ pyStrip (dlo.getD "") = ""))
    (h : o.failCartSelect = true) :
    checkout db sess pmo dlo o = (db, CheckoutResult.persistenceFailure) := by
  unfold checkout
  simp [if_neg hv, h]

theorem checkout_of_empty (db : DB) (sess : Session) (pmo dlo : Option String) (o : FailOracle)
    (hv : ¬ (pmo.getD "" = "" ∨ pyStrip (dlo.getD "") = ""))
    (hsel : o.failCartSelect = false)
    (hc : userCart db sess.user_id = []) :
    checkout db sess pmo dlo o = (db, CheckoutResult.emptyCart) := by
  unfold checkout
  simp [if_neg hv, hsel, checkoutCartQuery, hc]

theorem Txn.exec_false_mk (d : DB) (f : DB → DB) :
    (Txn.mk d false).exec false f = (⟨f d, false⟩, false) := by
  simp [Txn.exec]

theorem checkout_char (db : DB) (sess : Session) (pmo dlo : Option String) (o : FailOracle)
    (hv : ¬ (pmo.getD "" = "" ∨ pyStrip (dlo.getD "") = ""))
    (hsel : o.failCartSelect = false)
    (hc : ¬ userCart db sess.user_id = []) :
    checkout db sess pmo dlo o =
      if checkoutFailed db sess o then (db, CheckoutResult.persistenceFailure)
      else (checkoutSuccessDB db sess (pmo.getD "") (pyStrip (dlo.getD "")),
            CheckoutResult.success db.next_order_id) := by
  have hlen : (checkoutCartQuery db sess.user_id).length = (userCart db sess.user_id).length := by
    simp [checkoutCartQuery]
  have hcne : (checkoutCartQuery db sess.user_id).isEmpty = false := by
    simp [checkoutCartQuery, hc]
  unfold checkout
  rw [if_neg hv]
  simp only [hsel, Bool.false_eq_true, if_false, hcne, Txn.exec_snd, Bool.false_or]
  by_cases h2 : o.failOrderInsert
  · simp [h2, checkoutFailed]
  · rw [Bool.not_eq_true] at h2
    simp only [h2, Bool.false_eq_true, if_false, Txn.exec_false_mk]
    by_cases h3 : (List.range (userCart db sess.user_id).length).any o.failItemInsert
    · -- some order_items insert fails: the loop ends aborted, the cart DELETE raises
      have ⟨j, hj, hfj⟩ : ∃ j, j < (userCart db sess.user_id).length ∧ o.failItemInsert j = true := by
        simpa [List.any_eq_true] using h3
      have habort := insertItemsLoop_aborted_of_fail db.next_order_id
        (checkoutCartQuery db sess.user_id) o.failItemInsert 0 j
        ⟨{ db with
            orders := db.orders ++ [newOrderRow db sess (pmo.getD "") (pyStrip (dlo.getD ""))]
            next_order_id := db.next_order_id + 1 }, false⟩
        (by omega) (by simpa using hfj)
      simp only [habort, Txn.exec_fst_aborted, Bool.true_or, if_true]
      simp [checkoutFailed, h3]
    · rw [Bool.not_eq_true] at h3
      have hnofail : ∀ j, j < (checkoutCartQuery db sess.user_id).length →
          o.failItemInsert (0 + j) = false := by
        intro j hj
        have := List.any_eq_false.mp h3 j (by simp [List.mem_range]; omega)
        simpa using this
      rw [insertItemsLoop_of_noFail db.next_order_id (checkoutCartQuery db sess.user_id)
            o.failItemInsert 0 _ hnofail]
      by_cases h4 : o.failPaymentInsert
      · simp only [Txn.exec_fst_aborted, h4, Bool.or_true, Bool.true_or, if_true]
        simp [checkoutFailed, h3, h4]
      · rw [Bool.not_eq_true] at h4
        simp only [h4, Txn.exec_false_mk]
        by_cases h5 : o.failCartDelete
        · simp only [h5, Bool.or_true, if_true]
          simp [checkoutFailed, h5]
        · rw [Bool.not_eq_true] at h5
          simp only [h5, Bool.or_false, Bool.false_eq_true, if_false, Txn.exec_false_mk]
          by_cases h6 : o.failCommit
          · simp only [h6, if_true]
            simp [checkoutFailed, h6]
          · rw [Bool.not_eq_true] at h6
            simp only [h6, Bool.false_eq_true, if_false]
            have hfailed : checkoutFailed db sess o = false := by
              simp [checkoutFailed, hsel, h2, h3, h4, h5, h6]
            simp only [hfailed, Bool.false_eq_true, if_false]
            simp [checkoutSuccessDB, applyItemInserts]

theorem checkoutFailed_noFail (db : DB) (sess : Session) :
    checkoutFailed db sess noFail = false := by
  simp [checkoutFailed, noFail]

theorem checkoutSuccessDB_orders (db : DB) (sess : Session) (pm dl : String) :
    (checkoutSuccessDB db sess pm dl).orders = db.orders ++ [newOrderRow db sess pm dl] := by
  simp only [checkoutSuccessDB, applyItemInserts_orders]

theorem checkoutSuccessDB_cart (db : DB) (sess : Session) (pm dl : String) :
    (checkoutSuccessDB db sess pm dl).cart =
      db.cart.filter (fun c => !(c.user_id == sess.user_id)) := by
  simp only [checkoutSuccessDB, applyItemInserts_cart]

theorem checkoutSuccessDB_order_items_length (db : DB) (sess : Session) (pm dl : String) :
    (checkoutSuccessDB db sess pm dl).order_items.length =
      db.order_items.length + (userCart db sess.user_id).length := by
  simp only [checkoutSuccessDB, applyItemInserts_order_items_length]
  simp [checkoutCartQuery]

theorem userCart_checkoutSuccessDB (db : DB) (sess : Session) (pm dl : String) :
    userCart (checkoutSuccessDB db sess pm dl) sess.user_id = [] := by
  rw [userCart, checkoutSuccessDB_cart, List.filter_filter]
  apply List.filter_eq_nil_iff.mpr
  intro c _
  by_cases h : c.user_id == sess.user_id <;> simp [h]

/-- C1: a successful (failure-free) checkout of a non-empty cart empties the
user's cart, appends exactly one new order with status `'pending'` whose
snapshot holds one line per cart line and whose `total_amount` is the sum of
the snapshot's `price × quantity` line totals, and inserts one `order_items`
row per cart line. -/
theorem checkout_success_postconditions (db : DB) (sess : Session) (pm dl : String)
    (hpm : pm ≠ "") (hdl : pyStrip dl ≠ "") (hc : userCart db sess.user_id ≠ []) :
    (checkout db sess (some pm) (some dl) noFail).2 =
      CheckoutResult.success db.next_order_id ∧
    userCart (checkout db sess (some pm) (some dl) noFail).1 sess.user_id = [] ∧
    (checkout db sess (some pm) (some dl) noFail).1.orders =
      db.orders ++ [newOrderRow db sess pm (pyStrip dl)] ∧
    (newOrderRow db sess pm (pyStrip dl)).status = some "pending" ∧
    (newOrderRow db sess pm (pyStrip dl)).items =
      ItemsBlob.list (checkoutItems db sess.user_id) ∧
    (newOrderRow db sess pm (pyStrip dl)).total_amount =
      some (((checkoutItems db sess.user_id).map (fun it => it.total)).sum) ∧
    (∀ it ∈ checkoutItems db sess.user_id, it.total = it.price * (it.quantity : ℚ)) ∧
    (checkoutItems db sess.user_id).length = (userCart db sess.user_id).length ∧
    (checkout db sess (some pm) (some dl) noFail).1.order_items.length =
      db.order_items.length + (userCart db sess.user_id).length := by
  have hv : ¬ (((some pm : Option String).getD "") = "" ∨
      (pyStrip ((some dl : Option String).getD "")) = "") := by
    simpa using not_or.mpr ⟨hpm, hdl⟩
  have hch := checkout_char db sess (some pm) (some dl) noFail hv rfl hc
  rw [checkoutFailed_noFail] at hch
  simp only [Bool.false_eq_true, if_false, Option.getD_some] at hch
  rw [hch]
  refine ⟨rfl, userCart_checkoutSuccessDB db sess pm (pyStrip dl),
    checkoutSuccessDB_orders db sess pm (pyStrip dl), rfl, rfl, rfl, ?_, ?_,
    checkoutSuccessDB_order_items_length db sess pm (pyStrip dl)⟩
  · intro it hit
    simp only [checkoutItems, List.mem_map] at hit
    obtain ⟨r, _, hr⟩ := hit
    subst hr
    rfl
  · simp [checkoutItems, checkoutCartQuery]

/-- C9: checkout with valid fields on an empty cart (and a successful cart
read) answers EmptyCart and leaves the store untouched — no order,
order_items, payment or cart write happens. -/
theorem checkout_empty_cart (db : DB) (sess : Session) (pm dl : String) (o : FailOracle)
    (hpm : pm ≠ "") (hdl : pyStrip dl ≠ "") (hsel : o.failCartSelect = false)
    (hc : userCart db sess.user_id = []) :
    checkout db sess (some pm) (some dl) o = (db, CheckoutResult.emptyCart) := by
  apply checkout_of_empty db sess _ _ o _ hsel hc
  simpa using not_or.mpr ⟨hpm, hdl⟩

/-- C2: checkout is atomic.  Every run either leaves the store exactly as it
was and does not report success, or coincides with the failure-free run
(order, order_items rows, snapshot and cart clearing all applied) and
reports success; and when any statement of the transaction fails the first
branch is forced — pre-state intact, caller told of the failure. -/
theorem checkout_atomicity (db : DB) (sess : Session) (pmo dlo : Option String) (o : FailOracle) :
    (((checkout db sess pmo dlo o).1 = db ∧
        ∀ oid, (checkout db sess pmo dlo o).2 ≠ CheckoutResult.success oid) ∨
      (checkout db sess pmo dlo o = checkout db sess pmo dlo noFail ∧
        (checkout db sess pmo dlo o).2 = CheckoutResult.success db.next_order_id)) ∧
    ((o.failOrderInsert = true ∨
      (∃ j, j < (userCart db sess.user_id).length ∧ o.failItemInsert j = true) ∨
      o.failPaymentInsert = true ∨ o.failCartDelete = true ∨ o.failCommit = true ∨
      o.failCartSelect = true) →
      (checkout db sess pmo dlo o).1 = db ∧
        ∀ oid, (checkout db sess pmo dlo o).2 ≠ CheckoutResult.success oid) := by
  have key : checkoutFailed db sess o = true →
      (checkout db sess pmo dlo o).1 = db ∧
        ∀ oid, (checkout db sess pmo dlo o).2 ≠ CheckoutResult.success oid := by
    intro hcf
    by_cases hv : (pmo.getD "" = "" ∨ pyStrip (dlo.getD "") = "")
    · rw [checkout_missing db sess pmo dlo o hv]; simp
    · by_cases hsel : o.failCartSelect = true
      · rw [checkout_selectfail db sess pmo dlo o hv hsel]; simp
      · rw [Bool.not_eq_true] at hsel
        by_cases hc : userCart db sess.user_id = []
        · rw [checkout_of_empty db sess pmo dlo o hv hsel hc]; simp
        · rw [checkout_char db sess pmo dlo o hv hsel hc, if_pos hcf]; simp
  constructor
  · by_cases hcf : checkoutFailed db sess o = true
    · exact Or.inl (key hcf)
    · rw [Bool.not_eq_true] at hcf
      obtain ⟨⟨⟨⟨⟨hs, ho⟩, ha⟩, hp⟩, hd⟩, hm⟩ := by
        simpa [checkoutFailed, Bool.or_eq_false_iff] using hcf
      by_cases hv : (pmo.getD "" = "" ∨ pyStrip (dlo.getD "") = "")
      · left; rw [checkout_missing db sess pmo dlo o hv]; simp
      · by_cases hc : userCart db sess.user_id = []
        · left; rw [checkout_of_empty db sess pmo dlo o hv hs hc]; simp
        · right
          rw [checkout_char db sess pmo dlo o hv hs hc, if_neg (by simp [hcf]),
            checkout_char db sess pmo dlo noFail hv rfl hc,
            if_neg (by simp [checkoutFailed_noFail])]
          exact ⟨rfl, rfl⟩
  · intro hflags
    apply key
    rcases hflags with h | ⟨j, hj, hfj⟩ | h | h | h | h
    · simp [checkoutFailed, h]
    · have : (List.range (userCart db sess.user_id).length).any o.failItemInsert = true :=
        List.any_eq_true.mpr ⟨j, List.mem_range.mpr hj, hfj⟩
      simp [checkoutFailed, this]
    · simp [checkoutFailed, h]
    · simp [checkoutFailed, h]
    · simp [checkoutFailed, h]
    · simp [checkoutFailed, h]

theorem checkout_success_postconditions_witness :
    ("COD" : String) ≠ "" ∧ pyStrip "221B Baker Street" ≠ "" ∧
    userCart dbW1 7 ≠ [] ∧
    (checkout dbW1 sessW1 (some "COD") (some "221B Baker Street") noFail).2 =
      CheckoutResult.success 1 ∧
    userCart (checkout dbW1 sessW1 (some "COD") (some "221B Baker Street") noFail).1 7 = [] := by
  have h := checkout_success_postconditions dbW1 sessW1 "COD" "221B Baker Street"
    (by decide) (by decide) (by decide)
  exact ⟨by decide, by decide, by decide, h.1, h.2.1⟩

theorem checkout_empty_cart_witness :
    ("COD" : String) ≠ "" ∧ pyStrip "addr" ≠ "" ∧ userCart dbW9 3 = [] ∧
    checkout dbW9 sessW9 (some "COD") (some "addr") noFail = (dbW9, CheckoutResult.emptyCart) :=
  ⟨by decide, by decide, by decide,
   checkout_empty_cart dbW9 sessW9 "COD" "addr" noFail (by decide) (by decide) rfl (by decide)⟩

theorem checkout_atomicity_witness :
    (checkout dbW2 sessW2 (some "COD") (some "addr") oW2).1 = dbW2 ∧
    ∀ oid, (checkout dbW2 sessW2 (some "COD") (some "addr") oW2).2 ≠
      CheckoutResult.success oid :=
  (checkout_atomicity dbW2 sessW2 (some "COD") (some "addr") oW2).2
    (Or.inr (Or.inl ⟨0, by decide, by decide⟩))

/-- C3 counterexample: a checkout whose payment mode is "Cash" — not one of
COD/UPI/Card — is not rejected before touching the cart: it succeeds, clears
the cart and creates an order whose payment_mode is "Cash".  The handler
only checks that the field is non-empty. -/
theorem checkout_cash_accepted :
    (checkout dbC3 sessC3 (some "Cash") (some "221B Baker Street") noFail).2 =
      CheckoutResult.success 1 ∧
    (checkout dbC3 sessC3 (some "Cash") (some "221B Baker Street") noFail).1.cart = [] ∧
    ((checkout dbC3 sessC3 (some "Cash") (some "221B Baker Street") noFail).1.orders.map
      (fun r => r.payment_mode)) = [some "Cash"] :=
  ⟨rfl, rfl, rfl⟩

/-- C3 amended: checkout rejects only a missing or empty payment-mode field
("Payment mode and delivery location are required"), before the cart is read
and without any write; every non-empty payment mode — "Cash" included —
passes this validation, so no invalid-payment-mode failure exists. -/
theorem checkout_payment_validation (db : DB) (sess : Session) (o : FailOracle) :
    (∀ dlo, checkout db sess none dlo o = (db, CheckoutResult.missingFields)) ∧
    (∀ dlo, checkout db sess (some "") dlo o = (db, CheckoutResult.missingFields)) ∧
    (∀ pm dl, pm ≠ "" → pyStrip dl ≠ "" →
      (checkout db sess (some pm) (some dl) o).2 ≠ CheckoutResult.missingFields) := by
  refine ⟨fun dlo => checkout_missing _ _ _ _ _ (Or.inl rfl),
          fun dlo => checkout_missing _ _ _ _ _ (Or.inl rfl), ?_⟩
  intro pm dl hpm hdl
  have hv : ¬ (((some pm : Option String).getD "") = "" ∨
      pyStrip ((some dl : Option String).getD "") = "") := by
    simpa using not_or.mpr ⟨hpm, hdl⟩
  by_cases hsel : o.failCartSelect = true
  · rw [checkout_selectfail db sess _ _ o hv hsel]; simp
  · rw [Bool.not_eq_true] at hsel
    by_cases hc : userCart db sess.user_id = []
    · rw [checkout_of_empty db sess _ _ o hv hsel hc]; simp
    · rw [checkout_char db sess _ _ o hv hsel hc]
      by_cases hcf : checkoutFailed db sess o = true
      · rw [if_pos hcf]; simp
      · rw [if_neg hcf]; simp

/-- C4 counterexample: the order-history listing renders an order whose
snapshot text is corrupted with an EMPTY line list — the handler catches the
JSON error, leaves `items_list` empty and has no `order_items` fallback
(only `order_details` has one). -/
theorem order_history_corrupt_empty : orderHistoryLines ordC4 = [] := rfl

/-- C4 amended: for an order whose snapshot is corrupted, falsy, or decodes
to zero lines, the order-history listing shows an EMPTY line list (it never
falls back), while the order-details view falls back to the normalized
order_items rows and, when those are empty as well, renders exactly one
placeholder line priced at `float(total_amount or 0)`. -/
theorem order_lines_fallback (ord : OrderRow) (rows : List OrderItemRow)
    (hb : histItemsOfBlob ord.items = []) :
    orderHistoryLines ord = [] ∧
    (rows ≠ [] →
      orderDetailsLines ord rows = rows.map histItemOfRow ∧
      orderDetailsLines ord rows ≠ []) ∧
    (rows = [] →
      orderDetailsLines ord rows = [placeholderItem ord] ∧
      (placeholderItem ord).price = pyOrQ ord.total_amount) := by
  refine ⟨hb, ?_, ?_⟩
  · intro hr
    have h1 : orderDetailsLines ord rows = rows.map histItemOfRow := by
      simp [orderDetailsLines, hb, hr]
    exact ⟨h1, by simp [h1, hr]⟩
  · intro hr
    subst hr
    exact ⟨by simp [orderDetailsLines, hb], rfl⟩

theorem checkout_payment_validation_witness :
    checkout dbC3 sessC3 none (some "x") noFail = (dbC3, CheckoutResult.missingFields) ∧
    ("Cash" : String) ≠ "" ∧ pyStrip "221B Baker Street" ≠ "" ∧
    (checkout dbC3 sessC3 (some "Cash") (some "221B Baker Street") noFail).2 ≠
      CheckoutResult.missingFields :=
  ⟨(checkout_payment_validation dbC3 sessC3 noFail).1 (some "x"),
   by decide, by decide,
   (checkout_payment_validation dbC3 sessC3 noFail).2.2 "Cash" "221B Baker Street"
     (by decide) (by decide)⟩

theorem order_lines_fallback_witness :
    histItemsOfBlob ordC4.items = [] ∧
    orderDetailsLines ordC4 [] = [placeholderItem ordC4] ∧
    (placeholderItem ordC4).price = (450 : ℚ) :=
  ⟨rfl, ((order_lines_fallback ordC4 [] rfl).2.2 rfl).1,
   ((order_lines_fallback ordC4 [] rfl).2.2 rfl).2⟩

theorem checkout_post_cases (db : DB) (sess : Session) (pmo dlo : Option String)
    (o : FailOracle) :
    (checkout db sess pmo dlo o).1 = db ∨
    (checkout db sess pmo dlo o).1 =
      checkoutSuccessDB db sess (pmo.getD "") (pyStrip (dlo.getD "")) := by
  by_cases hv : (pmo.getD "" = "" ∨ pyStrip (dlo.getD "") = "")
  · left; rw [checkout_missing db sess pmo dlo o hv]
  · by_cases hsel : o.failCartSelect = true
    · left; rw [checkout_selectfail db sess pmo dlo o hv hsel]
    · rw [Bool.not_eq_true] at hsel
      by_cases hc : userCart db sess.user_id = []
      · left; rw [checkout_of_empty db sess pmo dlo o hv hsel hc]
      · rw [checkout_char db sess pmo dlo o hv hsel hc]
        by_cases hcf : checkoutFailed db sess o = true
        · left; rw [if_pos hcf]
        · right; rw [if_neg hcf]

/-- C5 counterexample: `add_to_cart` performs no check on the submitted
quantity — adding quantity 0 of an active item inserts a cart row whose
quantity is 0 (and a negative quantity is stored just the same), and the
handler reports success. -/
theorem add_to_cart_zero_quantity_row :
    (add_to_cart dbC5 7 (some "service") (some 1) 0).1.cart =
      [⟨1, 7, "service", 1, 0⟩] ∧
    (add_to_cart dbC5 7 (some "service") (some 1) 0).2 = CartResult.ok "Item added to cart" :=
  ⟨rfl, rfl⟩

/-- C5 amended: the quantity ≥ 1 invariant is preserved by `update_cart`
(in particular a decrease at quantity 1 deletes the row rather than storing
0), by `remove_from_cart`, by `checkout`, and by `add_to_cart` whenever the
submitted quantity is at least 1.  `add_to_cart` validates nothing about the
quantity, so only requests with positive quantity keep the invariant. -/
theorem cart_quantity_invariant (db : DB) (h : cartPos db) :
    (∀ uid ty iid q, 1 ≤ q → cartPos (add_to_cart db uid ty iid q).1) ∧
    (∀ uid cid act, cartPos (update_cart db uid cid act).1) ∧
    (∀ uid cid, cartPos (remove_from_cart db uid cid)) ∧
    (∀ sess pmo dlo o, cartPos (checkout db sess pmo dlo o).1) ∧
    (∀ uid cid c, db.cart.find? (fun r => r.id == cid && r.user_id == uid) = some c →
      c.quantity = 1 →
      (update_cart db uid cid "decrease").1.cart = db.cart.filter (fun r => r.id != cid)) := by
  refine ⟨?_, ?_, ?_, ?_, ?_⟩
  · intro uid ty iid q hq
    match ty, iid with
    | none, _ => exact h
    | some ty, none => exact h
    | some ty, some iid =>
      rw [add_to_cart]
      by_cases hty : ty ≠ "service" ∧ ty ≠ "menu"
      · rw [if_pos hty]; exact h
      · rw [if_neg hty]
        by_cases hl : (catalogActiveLookup db ty iid).isNone
        · rw [if_pos hl]; exact h
        · rw [if_neg hl]
          cases hfind : db.cart.find?
              (fun c => c.user_id == uid && c.item_type == ty && c.item_id == iid) with
          | none =>
            intro c hc
            rcases List.mem_append.mp hc with hc | hc
            · exact h c hc
            · rcases List.mem_singleton.mp hc with rfl
              exact hq
          | some existing =>
            have hex : 1 ≤ existing.quantity :=
              h existing (List.mem_of_find?_eq_some hfind)
            intro c hc
            rcases List.mem_map.mp hc with ⟨c0, hc0, rfl⟩
            by_cases hid : c0.id == existing.id
            · simp only [hid, if_true]
              omega
            · simp only [hid, Bool.false_eq_true, if_false]
              exact h c0 hc0
  · intro uid cid act
    rw [update_cart]
    cases hfind : db.cart.find? (fun c => c.id == cid && c.user_id == uid) with
    | none => exact h
    | some item =>
      dsimp only
      have hit : 1 ≤ item.quantity := h item (List.mem_of_find?_eq_some hfind)
      by_cases hle : (if act = "increase" then item.quantity + 1
          else if act = "decrease" then item.quantity - 1 else item.quantity) ≤ 0
      · rw [if_pos hle]
        intro c hc
        exact h c (List.mem_of_mem_filter hc)
      · rw [if_neg hle]
        intro c hc
        rcases List.mem_map.mp hc with ⟨c0, hc0, rfl⟩
        by_cases hid : c0.id == cid
        · simp only [hid, if_true]
          omega
        · simp only [hid, Bool.false_eq_true, if_false]
          exact h c0 hc0
  · intro uid cid c hc
    exact h c (List.mem_of_mem_filter hc)
  · intro sess pmo dlo o
    rcases checkout_post_cases db sess pmo dlo o with hpost | hpost
    · rw [hpost]; exact h
    · rw [hpost]
      intro c hc
      rw [checkoutSuccessDB_cart] at hc
      exact h c (List.mem_of_mem_filter hc)
  · intro uid cid c hfind hq
    rw [update_cart, hfind]
    dsimp only
    have hz : (if "decrease" = "increase" then c.quantity + 1
        else if "decrease" = "decrease" then c.quantity - 1 else c.quantity) = 0 := by
      rw [if_neg (by decide), if_pos rfl, hq]
      decide
    rw [hz, if_pos (le_refl (0 : Int))]

theorem cart_quantity_invariant_witness :
    cartPos dbW5 ∧
    dbW5.cart.find? (fun r => r.id == 4 && r.user_id == 2) = some ⟨4, 2, "menu", 9, 1⟩ ∧
    (update_cart dbW5 2 4 "decrease").1.cart = dbW5.cart.filter (fun r => r.id != 4) :=
  ⟨by unfold cartPos; decide, by decide,
   (cart_quantity_invariant dbW5 (by unfold cartPos; decide)).2.2.2.2 2 4 ⟨4, 2, "menu", 9, 1⟩
     (by decide) (by decide)⟩

theorem find_eq_of_mem_of_unique {α : Type} (p : α → Bool) (l : List α) (c : α)
    (hc : c ∈ l) (hp : p c = true) (huniq : ∀ a ∈ l, p a = true → a = c) :
    l.find? p = some c := by
  induction l with
  | nil => cases hc
  | cons a l ih =>
    by_cases ha : p a = true
    · rw [List.find?_cons_of_pos _ ha, huniq a (List.mem_cons_self a l) ha]
    · have hca : c ≠ a := fun he => ha (he ▸ hp)
      have hc' : c ∈ l := by
        rcases List.mem_cons.mp hc with he | hm
        · exact absurd he hca
        · exact hm
      rw [List.find?_cons_of_neg _ (by simpa using ha)]
      exact ih hc' (fun a' ha' hpa' => huniq a' (List.mem_cons_of_mem _ ha') hpa')

/-- C6: `add_to_cart` keeps the at-most-one-row-per-(user, item_type,
item_id) property, and adding an item the user already has in the cart
updates that row's quantity by the added amount in place — the cart keeps
the same length and no second row appears. -/
theorem cart_unique_increment (db : DB) (hu : cartUniq db) :
    (∀ uid ty iid q, cartUniq (add_to_cart db uid ty iid q).1) ∧
    (∀ uid ty iid q c, (ty = "service" ∨ ty = "menu") →
      (catalogActiveLookup db ty iid).isSome = true → c ∈ db.cart →
      c.user_id = uid → c.item_type = ty → c.item_id = iid →
      (add_to_cart db uid (some ty) (some iid) q).1.cart =
        db.cart.map (fun r =>
          if r.id == c.id then { r with quantity := c.quantity + q } else r) ∧
      (add_to_cart db uid (some ty) (some iid) q).1.cart.length = db.cart.length) := by
  constructor
  · intro uid ty iid q
    match ty, iid with
    | none, _ => exact hu
    | some ty, none => exact hu
    | some ty, some iid =>
      rw [add_to_cart]
      by_cases hty : ty ≠ "service" ∧ ty ≠ "menu"
      · rw [if_pos hty]; exact hu
      · rw [if_neg hty]
        by_cases hl : (catalogActiveLookup db ty iid).isNone
        · rw [if_pos hl]; exact hu
        · rw [if_neg hl]
          cases hfind : db.cart.find?
              (fun c => c.user_id == uid && c.item_type == ty && c.item_id == iid) with
          | none =>
            dsimp only
            rw [cartUniq]
            apply List.pairwise_append.mpr
            refine ⟨hu, List.pairwise_singleton _ _, ?_⟩
            intro a ha b hb
            rcases List.mem_singleton.mp hb with rfl
            intro ⟨h1, h2, h3⟩
            have := List.find?_eq_none.mp hfind a ha
            apply this
            simp [h1, h2, h3]
          | some existing =>
            dsimp only
            rw [cartUniq]
            apply List.Pairwise.map _ _ hu
            intro a b hab htr
            apply hab
            have key : ∀ r : CartRow,
                ((fun r => if r.id == existing.id
                  then { r with quantity := existing.quantity + q } else r) r).user_id = r.user_id ∧
                ((fun r => if r.id == existing.id
                  then { r with quantity := existing.quantity + q } else r) r).item_type = r.item_type ∧
                ((fun r => if r.id == existing.id
                  then { r with quantity := existing.quantity + q } else r) r).item_id = r.item_id := by
              intro r
              by_cases hr : r.id == existing.id <;> simp [hr]
            obtain ⟨ha1, ha2, ha3⟩ := key a
            obtain ⟨hb1, hb2, hb3⟩ := key b
            obtain ⟨t1, t2, t3⟩ := htr
            exact ⟨ha1 ▸ hb1 ▸ t1, ha2 ▸ hb2 ▸ t2, ha3 ▸ hb3 ▸ t3⟩
  · intro uid ty iid q c hty hl hc h1 h2 h3
    have hfind : db.cart.find?
        (fun r => r.user_id == uid && r.item_type == ty && r.item_id == iid) = some c := by
      apply find_eq_of_mem_of_unique _ _ _ hc (by simp [h1, h2, h3])
      intro a ha hpa
      by_cases hac : a = c
      · exact hac
      · exfalso
        have hsym : Symmetric (fun a b : CartRow => ¬ cartTripleEq a b) := by
          intro x y hxy hyx
          exact hxy ⟨hyx.1.symm, hyx.2.1.symm, hyx.2.2.symm⟩
        have := hu.forall hsym ha hc hac
        apply this
        simp only [Bool.and_eq_true, beq_iff_eq] at hpa
        exact ⟨hpa.1.1.trans h1.symm, hpa.1.2.trans h2.symm, hpa.2.trans h3.symm⟩
    have hty' : ¬ (ty ≠ "service" ∧ ty ≠ "menu") := by
      rcases hty with h | h <;> simp [h]
    have hl' : ¬ (catalogActiveLookup db ty iid).isNone = true := by
      simp [Option.isNone_eq_false_iff, ← Option.isSome_iff_ne_none, hl]
    rw [add_to_cart]
    rw [if_neg hty', if_neg hl', hfind]
    exact ⟨rfl, by simp⟩

/-- C7 (code bug): when the best-effort payments update errors (for example
because the payments table is absent — a situation the handler's own
`try/except` anticipates), `cancel_order` still answers success, but the
swallowed error left the transaction aborted, so the final commit rolls the
status change back: the store is unchanged and the order is still pending,
contradicting the claim that the payment-update failure is non-fatal to the
cancellation.  The failure-free run, in contrast, does flip the status and
the payment row. -/
theorem cancel_payment_update_failure_bug :
    cancel_order dbC7 7 1 { cancelNoFail with failPaymentUpdate := true } =
      (dbC7, CancelResult.cancelledOk) ∧
    dbC7.orders.map (fun r => r.status) = [some "pending"] ∧
    cancel_order dbC7 7 1 cancelNoFail =
      ({ dbC7 with
          orders := [⟨1, 7, none, none, none, none, ItemsBlob.list [], some 900, some "COD",
            some "x", some "cancelled"⟩],
          payments := [⟨1, 7, 900, "COD", "refunded"⟩] },
       CancelResult.cancelledOk) :=
  ⟨rfl, rfl, rfl⟩

/-- C8: a cart line whose catalog item is missing, or whose stored price is
NULL, resolves to unit price 0 wherever money is read — on the cart page
(price and line contribution 0), in checkout's snapshot (price and line
total 0) — and the order_items fallback likewise coerces a NULL stored
price to 0; no null ever reaches the arithmetic. -/
theorem missing_price_resolves_zero (db : DB) (c : CartRow)
    (h : catalogLookup db c.item_type c.item_id = none ∨
      (catalogLookup db c.item_type c.item_id).bind (fun it => it.final_price) = none) :
    cartRoutePrice db c = 0 ∧
    cartRoutePrice db c * (c.quantity : ℚ) = 0 ∧
    (mkSnapItem (checkoutJoin db c)).price = 0 ∧
    (mkSnapItem (checkoutJoin db c)).total = 0 ∧
    (∀ r : OrderItemRow, r.price = none → (histItemOfRow r).price = 0) := by
  have hb : (catalogLookup db c.item_type c.item_id).bind (fun it => it.final_price) = none := by
    rcases h with h | h
    · rw [h]; rfl
    · exact h
  have h1 : cartRoutePrice db c = 0 := by rw [cartRoutePrice, hb]; rfl
  refine ⟨h1, by rw [h1]; ring, ?_, ?_, ?_⟩
  · show pyOrQ (checkoutJoin db c).price = 0
    have : (checkoutJoin db c).price = none := hb
    rw [this]; rfl
  · show pyOrQ (checkoutJoin db c).price * ((checkoutJoin db c).quantity : ℚ) = 0
    have : (checkoutJoin db c).price = none := hb
    rw [this]
    show (0 : ℚ) * _ = 0
    ring
  · intro r hr
    show pyOrQ r.price = 0
    rw [hr]; rfl

/-- C10: an add_to_cart request whose (item_type, item_id) names no catalog
row with status 'active' fails with "Item not available" and leaves the
store — the cart included — unchanged, so the add operation itself never
creates a dangling cart reference. -/
theorem add_to_cart_unavailable (db : DB) (uid : Nat) (ty : String) (iid : Nat) (q : Int)
    (hty : ty = "service" ∨ ty = "menu")
    (h : catalogActiveLookup db ty iid = none) :
    add_to_cart db uid (some ty) (some iid) q = (db, CartResult.fail "Item not available") := by
  have hty' : ¬ (ty ≠ "service" ∧ ty ≠ "menu") := by
    rcases hty with h | h <;> simp [h]
  rw [add_to_cart, if_neg hty', if_pos (by simp [h])]

theorem cart_unique_increment_witness :
    cartUniq dbW6 ∧
    (add_to_cart dbW6 7 (some "service") (some 1) 2).1.cart =
      dbW6.cart.map (fun r => if r.id == 1 then { r with quantity := 1 + 2 } else r) ∧
    (add_to_cart dbW6 7 (some "service") (some 1) 2).1.cart =
      [⟨1, 7, "service", 1, 3⟩] := by
  have hu : cartUniq dbW6 := by
    unfold cartUniq dbW6
    exact List.pairwise_singleton _ _
  refine ⟨hu, ?_, by decide⟩
  exact ((cart_unique_increment dbW6 hu).2 7 "service" 1 2 ⟨1, 7, "service", 1, 1⟩
    (Or.inl rfl) (by decide) (by decide) rfl rfl rfl).1

theorem missing_price_resolves_zero_witness :
    catalogLookup dbW8 "service" 42 = none ∧
    cartRoutePrice dbW8 ⟨1, 7, "service", 42, 3⟩ = 0 ∧
    (mkSnapItem (checkoutJoin dbW8 ⟨1, 7, "service", 42, 3⟩)).total = 0 :=
  ⟨rfl, (missing_price_resolves_zero dbW8 ⟨1, 7, "service", 42, 3⟩ (Or.inl rfl)).1,
   (missing_price_resolves_zero dbW8 ⟨1, 7, "service", 42, 3⟩ (Or.inl rfl)).2.2.2.1⟩

theorem add_to_cart_unavailable_witness :
    catalogActiveLookup dbW10 "service" 1 = none ∧
    add_to_cart dbW10 4 (some "service") (some 1) 1 =
      (dbW10, CartResult.fail "Item not available") :=
  ⟨rfl, add_to_cart_unavailable dbW10 4 "service" 1 1 (Or.inl rfl) rfl⟩
